import Mathlib

/-!
Verification of the streaming file source component
(src/file/BinaryFileSource.cpp, class BinaryFileSource).

The component is embedded shallowly: its member state (_fd, _path,
_rewind) becomes a structure, and each method becomes a pure function
from the state and the responses of the operating system to a new state
together with a trace of observable effects (system calls issued, data
produced on the output port, messages sent to the logging channel, and
a thrown exception, if any).

OS interactions are parameters of the model:
- openSourceFD (declared in FileDescriptor.hpp, a header whose body is
  not part of the sources here) is passed in as a function from paths to
  descriptors; per the spec, on failure the handle remains at the closed
  sentinel, which on POSIX means the failing open returns -1 (stated as
  a hypothesis where a theorem needs it).
- select is modelled by selectModel below: work() calls
  select(_fd+1, ...) with a timeout derived from the scheduler budget;
  when _fd is the closed sentinel -1 the nfds argument is 0, no
  descriptor is examined, and select returns 0 after the timeout
  expires, so the comparison `<= 0` holds and work() yields. For a
  valid descriptor the boolean `ready` abstracts whether the descriptor
  became readable within the budget.
- read and lseek are recorded as effects; the byte count returned by
  read is an input of the work environment.

The model follows the POSIX branch of work() (the `#else` of the
`#ifdef _MSC_VER`), which is the branch the specification describes.
-/

/-- Member state of the BinaryFileSource block: the file descriptor
(-1 is the closed sentinel, as in the constructor initialiser `_fd(-1)`),
the configured file path, and the auto-rewind flag. -/
structure BinaryFileSource where
  fd : Int
  path : String
  rewind : Bool
  deriving Repr, DecidableEq

namespace BinaryFileSource

/-- State established by the constructor: `_fd(-1)`, `_rewind(false)`,
and a default-constructed (empty) path. -/
def init : BinaryFileSource := { fd := -1, path := "", rewind := false }

/-- Messages the component sends to the logging channel
(poco_error_f4 in activate, poco_error_f3 in work). -/
inductive LogMsg where
  | openError (path : String) (fd : Int) (errno : Int)
  | readError (r : Int) (errno : Int)
  deriving Repr, DecidableEq

/-- Observable effects of one method call, in order of occurrence. -/
inductive Effect where
  /-- close(fd) issued by deactivate. -/
  | closeFD (fd : Int)
  /-- select(fd+1, ...) with the timeout tv derived from the scheduler
  budget: tv.tv_usec = maxTimeoutNs/1000. -/
  | selectCall (fd : Int) (timeoutUs : Nat)
  /-- this->yield(): return control to the scheduler with no production. -/
  | yield
  /-- read(fd, ptr, len) issued by work. -/
  | readCall (fd : Int) (len : Nat)
  /-- lseek(fd, 0, SEEK_SET) issued by work on EOF with rewind enabled. -/
  | seek (fd : Int) (pos : Nat)
  /-- out0->produce(n): commit n whole elements to the output port. -/
  | produce (n : Nat)
  /-- message sent to the logging channel. -/
  | log (m : LogMsg)
  deriving Repr, DecidableEq

/-- The Pothos::FileException thrown by activate on an empty path. -/
structure FileException where
  cls : String
  msg : String
  deriving Repr, DecidableEq

/-- Result of one method call: the member state when the call returns
(or when the exception leaves the method), the effect trace, and the
exception, if one was thrown. -/
structure Outcome where
  state : BinaryFileSource
  effects : List Effect
  exc : Option FileException
  deriving Repr, DecidableEq

/-- Model of `select(_fd+1, &rset, NULL, NULL, &tv)` in work(): with the
closed sentinel (or any negative descriptor) nfds is at most 0, no
descriptor is examined and the call returns 0 once the timeout expires;
with a valid descriptor it returns 1 exactly when the descriptor becomes
readable within the timeout, and 0 on expiry. -/
def selectModel (fd : Int) (ready : Bool) : Int :=
  if fd < 0 then 0 else if ready then 1 else 0

/-- Environment of one work() cycle: the scheduler wait budget
(workInfo().maxTimeoutNs), whether the descriptor became readable within
the budget, the output buffer capacity in bytes (out0->buffer().length),
the element byte width (out0->dtype().size()), the return value of read,
and errno as observed after a failing read. -/
structure WorkEnv where
  maxTimeoutNs : Nat
  ready : Bool
  bufferLength : Nat
  dtypeSize : Nat
  readResult : Int
  errno : Int
  deriving Repr, DecidableEq

/-- Embedding of BinaryFileSource::work (POSIX branch):

    tv.tv_usec = workInfo().maxTimeoutNs/1000;
    if (select(_fd+1, &rset, NULL, NULL, &tv) <= 0) return this->yield();
    auto r = read(_fd, ptr, out0->buffer().length);
    if (r == 0 and _rewind) lseek(_fd, 0, SEEK_SET);
    if (r >= 0) out0->produce(size_t(r)/out0->dtype().size());
    else poco_error_f3(..., "read() returned %d -- %s(%d)", ...);

No member of the object is assigned anywhere in the method. -/
def work (s : BinaryFileSource) (env : WorkEnv) : Outcome :=
  let sel := Effect.selectCall s.fd (env.maxTimeoutNs / 1000)
  if selectModel s.fd env.ready ≤ 0 then
    { state := s, effects := [sel, Effect.yield], exc := none }
  else
    let r := env.readResult
    let seekEffs : List Effect :=
      if r = 0 ∧ s.rewind = true then [Effect.seek s.fd 0] else []
    let tailEffs : List Effect :=
      if 0 ≤ r then [Effect.produce (r.toNat / env.dtypeSize)]
      else [Effect.log (LogMsg.readError r env.errno)]
    { state := s
      effects := [sel, Effect.readCall s.fd env.bufferLength] ++ seekEffs ++ tailEffs
      exc := none }

/-- Embedding of BinaryFileSource::activate:

    if (_path.empty()) throw Pothos::FileException("BinaryFileSource", "empty file path");
    _fd = openSourceFD(_path.c_str());
    if (_fd < 0) poco_error_f4(..., "open(%s) returned %d -- %s(%d)", ...);

openSourceFD is declared in FileDescriptor.hpp, whose body is not among
the sources; it is a parameter of the model. Modelled from the spec:
activate attempts to open the path for reading; on success the handle
becomes valid; on failure the handle remains closed (the POSIX open
failure sentinel -1) and the failure is reported via the logging
channel, not thrown. -/
def activate (openSourceFD : String → Int) (errno : Int) (s : BinaryFileSource) : Outcome :=
  if s.path = "" then
    { state := s, effects := []
      exc := some { cls := "BinaryFileSource", msg := "empty file path" } }
  else
    let fd := openSourceFD s.path
    if fd < 0 then
      { state := { s with fd := fd }
        effects := [Effect.log (LogMsg.openError s.path fd errno)]
        exc := none }
    else
      { state := { s with fd := fd }, effects := [], exc := none }

/-- Embedding of BinaryFileSource::deactivate:

    close(_fd);
    _fd = -1;

close is called unconditionally (close(-1) merely fails with EBADF and
the return value is ignored); the member is then reset to the sentinel. -/
def deactivate (s : BinaryFileSource) : Outcome :=
  { state := { s with fd := -1 }, effects := [Effect.closeFD s.fd], exc := none }

/-- Embedding of BinaryFileSource::setFilePath:

    _path = path;
    if (_fd != -1) { this->deactivate(); this->activate(); }

When activate throws, the exception propagates out of setFilePath with
the members as activate left them. -/
def setFilePath (openSourceFD : String → Int) (errno : Int)
    (s : BinaryFileSource) (path : String) : Outcome :=
  let s1 := { s with path := path }
  if s1.fd ≠ -1 then
    let o1 := deactivate s1
    let o2 := activate openSourceFD errno o1.state
    { state := o2.state, effects := o1.effects ++ o2.effects, exc := o2.exc }
  else
    { state := s1, effects := [], exc := none }

/-- Embedding of BinaryFileSource::setAutoRewind: pure member update. -/
def setAutoRewind (s : BinaryFileSource) (rewind : Bool) : BinaryFileSource :=
  { s with rewind := rewind }

end BinaryFileSource

open BinaryFileSource

/-- C1: a work() cycle invoked while the handle is invalid (the closed
sentinel, or any negative descriptor) does nothing productive: select is
issued with the scheduler-derived timeout, returns without readiness,
and the cycle yields — no read is performed, nothing is produced, no
message is logged, and the state is unchanged. The wait inside select is
capped by the timeout tv derived from the granted budget, so the budget
is not consumed improperly. -/
theorem work_invalid_handle_yields (s : BinaryFileSource) (env : WorkEnv)
    (hinv : s.fd < 0) :
    work s env =
      { state := s
        effects := [Effect.selectCall s.fd (env.maxTimeoutNs / 1000), Effect.yield]
        exc := none } := by
  simp [work, selectModel, hinv]

/-- Witness for C1: a never-activated instance (fd = -1) yields. -/
theorem work_invalid_handle_yields_witness :
    work BinaryFileSource.init
        { maxTimeoutNs := 1000000, ready := true, bufferLength := 4096,
          dtypeSize := 8, readResult := 0, errno := 0 } =
      { state := BinaryFileSource.init
        effects := [Effect.selectCall (-1) 1000, Effect.yield]
        exc := none } := by
  have h := work_invalid_handle_yields BinaryFileSource.init
    { maxTimeoutNs := 1000000, ready := true, bufferLength := 4096,
      dtypeSize := 8, readResult := 0, errno := 0 } (by decide)
  simpa using h

/-- C2: a work() cycle on a valid handle whose bounded readiness wait
expires with no data ready returns control to the scheduler having
produced zero elements: the trace is exactly the bounded select followed
by yield — no read, no produce, and in particular no message on the
logging channel. -/
theorem work_timeout_yields (s : BinaryFileSource) (env : WorkEnv)
    (hready : env.ready = false) :
    work s env =
      { state := s
        effects := [Effect.selectCall s.fd (env.maxTimeoutNs / 1000), Effect.yield]
        exc := none } := by
  unfold work selectModel
  rcases lt_or_le s.fd 0 with h | h
  · simp [h]
  · simp [not_lt.mpr h, hready]

/-- Witness for C2: an open handle with no data ready within the budget. -/
theorem work_timeout_yields_witness :
    work { fd := 3, path := "a.bin", rewind := false }
        { maxTimeoutNs := 500000, ready := false, bufferLength := 4096,
          dtypeSize := 8, readResult := 7, errno := 0 } =
      { state := { fd := 3, path := "a.bin", rewind := false }
        effects := [Effect.selectCall 3 500, Effect.yield]
        exc := none } := by
  have h := work_timeout_yields { fd := 3, path := "a.bin", rewind := false }
    { maxTimeoutNs := 500000, ready := false, bufferLength := 4096,
      dtypeSize := 8, readResult := 7, errno := 0 } (by decide)
  simpa using h

/-- C3: a work() cycle whose read returns N > 0 bytes produces exactly
produce(N / elementByteWidth) under integer (truncating) division: the
trace is the select, the single read, and that one produce call — and
the committed whole elements cover at most N bytes, so a trailing
partial element is never emitted, its bytes simply dropped. -/
theorem work_read_produces_whole_elements (s : BinaryFileSource) (env : WorkEnv)
    (hsel : 0 < selectModel s.fd env.ready)
    (hr : 0 < env.readResult) :
    work s env =
      { state := s
        effects := [Effect.selectCall s.fd (env.maxTimeoutNs / 1000),
                    Effect.readCall s.fd env.bufferLength,
                    Effect.produce (env.readResult.toNat / env.dtypeSize)]
        exc := none } ∧
    (env.readResult.toNat / env.dtypeSize) * env.dtypeSize ≤ env.readResult.toNat := by
  refine ⟨?_, Nat.div_mul_le_self _ _⟩
  unfold work
  simp [not_le.mpr hsel, ne_of_gt hr, le_of_lt hr]

/-- Witness for C3: a 10-byte read of 4-byte elements commits 2 whole
elements, dropping the 2 trailing bytes. -/
theorem work_read_produces_whole_elements_witness :
    work { fd := 3, path := "a.bin", rewind := false }
        { maxTimeoutNs := 1000000, ready := true, bufferLength := 16,
          dtypeSize := 4, readResult := 10, errno := 0 } =
      { state := { fd := 3, path := "a.bin", rewind := false }
        effects := [Effect.selectCall 3 1000, Effect.readCall 3 16, Effect.produce 2]
        exc := none } ∧ 2 * 4 ≤ 10 := by
  have h := work_read_produces_whole_elements { fd := 3, path := "a.bin", rewind := false }
    { maxTimeoutNs := 1000000, ready := true, bufferLength := 16,
      dtypeSize := 4, readResult := 10, errno := 0 } (by decide) (by decide)
  exact ⟨by simpa using h.1, by decide⟩

/-- C4: a work() cycle whose read returns zero bytes (end of file)
commits zero elements either way: with auto-rewind enabled the cycle
issues lseek(fd, 0, SEEK_SET) resetting the read position to offset
zero; with auto-rewind disabled it issues no seek, so the handle stays
positioned at end-of-file. In both cases the handle value is unchanged
(stays open), produce(0) commits no elements, and nothing is logged. -/
theorem work_eof_policy (s : BinaryFileSource) (env : WorkEnv)
    (hsel : 0 < selectModel s.fd env.ready)
    (hr : env.readResult = 0) :
    work s env =
      { state := s
        effects := [Effect.selectCall s.fd (env.maxTimeoutNs / 1000),
                    Effect.readCall s.fd env.bufferLength] ++
                   (if s.rewind then [Effect.seek s.fd 0] else []) ++
                   [Effect.produce 0]
        exc := none } := by
  unfold work
  rcases hb : s.rewind with _ | _ <;>
    simp [not_le.mpr hsel, hr, hb, Nat.zero_div, Int.toNat_zero]

/-- Witness for C4: end of file with auto-rewind enabled rewinds to
offset zero and commits no elements. -/
theorem work_eof_policy_witness :
    work { fd := 5, path := "b.bin", rewind := true }
        { maxTimeoutNs := 1000000, ready := true, bufferLength := 64,
          dtypeSize := 8, readResult := 0, errno := 0 } =
      { state := { fd := 5, path := "b.bin", rewind := true }
        effects := [Effect.selectCall 5 1000, Effect.readCall 5 64,
                    Effect.seek 5 0, Effect.produce 0]
        exc := none } := by
  have h := work_eof_policy { fd := 5, path := "b.bin", rewind := true }
    { maxTimeoutNs := 1000000, ready := true, bufferLength := 64,
      dtypeSize := 8, readResult := 0, errno := 0 } (by decide) (by decide)
  simpa using h

/-- C5: a work() cycle whose read fails (negative return) produces no
elements, reports the failure on the logging channel with the return
value and errno, and leaves the member state — including the handle —
unchanged: work never closes the descriptor on a read error. -/
theorem work_read_error_logged (s : BinaryFileSource) (env : WorkEnv)
    (hsel : 0 < selectModel s.fd env.ready)
    (hr : env.readResult < 0) :
    work s env =
      { state := s
        effects := [Effect.selectCall s.fd (env.maxTimeoutNs / 1000),
                    Effect.readCall s.fd env.bufferLength,
                    Effect.log (LogMsg.readError env.readResult env.errno)]
        exc := none } := by
  unfold work
  simp [not_le.mpr hsel, ne_of_lt hr, not_le.mpr hr]

/-- Witness for C5: a failing read (r = -1, errno = 5) is logged and the
handle value is untouched. -/
theorem work_read_error_logged_witness :
    work { fd := 4, path := "c.bin", rewind := false }
        { maxTimeoutNs := 2000000, ready := true, bufferLength := 32,
          dtypeSize := 4, readResult := -1, errno := 5 } =
      { state := { fd := 4, path := "c.bin", rewind := false }
        effects := [Effect.selectCall 4 2000, Effect.readCall 4 32,
                    Effect.log (LogMsg.readError (-1) 5)]
        exc := none } := by
  have h := work_read_error_logged { fd := 4, path := "c.bin", rewind := false }
    { maxTimeoutNs := 2000000, ready := true, bufferLength := 32,
      dtypeSize := 4, readResult := -1, errno := 5 } (by decide) (by decide)
  simpa using h

/-- C6: activate raises an exception exactly when the configured path is
empty (leaving the state, and hence a closed handle, untouched); for a
non-empty path an OS-level open failure is never thrown: the outcome
carries no exception, the failure is reported on the logging channel
with the returned value and errno, and the handle ends at the closed
sentinel -1 (by the POSIX contract that a failing open returns -1,
carried as hypothesis hPosix). -/
theorem activate_error_policy (openSourceFD : String → Int) (errno : Int)
    (s : BinaryFileSource)
    (hPosix : openSourceFD s.path < 0 → openSourceFD s.path = -1) :
    ((activate openSourceFD errno s).exc.isSome = true ↔ s.path = "") ∧
    (s.path = "" → (activate openSourceFD errno s).state = s) ∧
    (s.path ≠ "" → openSourceFD s.path < 0 →
      (activate openSourceFD errno s).exc = none ∧
      (activate openSourceFD errno s).state.fd = -1 ∧
      (activate openSourceFD errno s).effects =
        [Effect.log (LogMsg.openError s.path (openSourceFD s.path) errno)]) := by
  unfold activate
  by_cases hp : s.path = ""
  · simp [hp]
  · by_cases hfd : openSourceFD s.path < 0
    · simp [hp, hfd, hPosix hfd]
    · simp [hp, hfd]

/-- Witness for C6: every open attempt fails with the POSIX sentinel;
the closed, never-activated instance with an empty path errors out with
its state untouched, and the same failing opener on a non-empty path
logs instead of throwing. -/
theorem activate_error_policy_witness :
    (((activate (fun _ => -1) 2 BinaryFileSource.init).exc.isSome = true ↔
        BinaryFileSource.init.path = "") ∧
      (BinaryFileSource.init.path = "" →
        (activate (fun _ => -1) 2 BinaryFileSource.init).state = BinaryFileSource.init) ∧
      (BinaryFileSource.init.path ≠ "" → (fun (_ : String) => (-1 : Int)) BinaryFileSource.init.path < 0 →
        (activate (fun _ => -1) 2 BinaryFileSource.init).exc = none ∧
        (activate (fun _ => -1) 2 BinaryFileSource.init).state.fd = -1 ∧
        (activate (fun _ => -1) 2 BinaryFileSource.init).effects =
          [Effect.log (LogMsg.openError BinaryFileSource.init.path (-1) 2)])) :=
  activate_error_policy (fun _ => -1) 2 BinaryFileSource.init (fun _ => rfl)

/-- C7: setFilePath called while the handle is open never leaves the
handle open on the previously configured path: after the call the stored
path is the new one, and either the handle is open on the result of
opening the new path, or the handle is at the closed sentinel and an
error was reported — an open failure on the logging channel, or the
empty-path exception propagating out. -/
theorem setFilePath_reconfiguration_safety (openSourceFD : String → Int) (errno : Int)
    (s : BinaryFileSource) (path : String)
    (hOpen : s.fd ≠ -1)
    (hPosix : openSourceFD path < 0 → openSourceFD path = -1) :
    (setFilePath openSourceFD errno s path).state.path = path ∧
    ((0 ≤ (setFilePath openSourceFD errno s path).state.fd ∧
      (setFilePath openSourceFD errno s path).state.fd = openSourceFD path ∧
      (setFilePath openSourceFD errno s path).exc = none) ∨
     ((setFilePath openSourceFD errno s path).state.fd = -1 ∧
      ((setFilePath openSourceFD errno s path).exc.isSome = true ∨
       Effect.log (LogMsg.openError path (openSourceFD path) errno) ∈
         (setFilePath openSourceFD errno s path).effects))) := by
  unfold setFilePath deactivate activate
  by_cases hp : path = ""
  · simp [hOpen, hp]
  · by_cases hfd : openSourceFD path < 0
    · simp [hOpen, hp, hfd, hPosix hfd]
    · simp [hOpen, hp, hfd, not_lt.mp hfd]

/-- Witness for C7: reconfiguring an open instance to a path that opens
successfully ends with the handle open on the new path. -/
theorem setFilePath_reconfiguration_safety_witness :
    ((setFilePath (fun _ => 7) 0 { fd := 3, path := "old.bin", rewind := false } "new.bin").state.path = "new.bin" ∧
     ((0 ≤ (setFilePath (fun _ => 7) 0 { fd := 3, path := "old.bin", rewind := false } "new.bin").state.fd ∧
       (setFilePath (fun _ => 7) 0 { fd := 3, path := "old.bin", rewind := false } "new.bin").state.fd =
         (fun (_ : String) => (7 : Int)) "new.bin" ∧
       (setFilePath (fun _ => 7) 0 { fd := 3, path := "old.bin", rewind := false } "new.bin").exc = none) ∨
      ((setFilePath (fun _ => 7) 0 { fd := 3, path := "old.bin", rewind := false } "new.bin").state.fd = -1 ∧
       ((setFilePath (fun _ => 7) 0 { fd := 3, path := "old.bin", rewind := false } "new.bin").exc.isSome = true ∨
        Effect.log (LogMsg.openError "new.bin" ((fun (_ : String) => (7 : Int)) "new.bin") 0) ∈
          (setFilePath (fun _ => 7) 0 { fd := 3, path := "old.bin", rewind := false } "new.bin").effects)))) :=
  setFilePath_reconfiguration_safety (fun _ => 7) 0
    { fd := 3, path := "old.bin", rewind := false } "new.bin"
    (by decide) (fun h => absurd h (by decide))

/-- C8: deactivate is total (a Lean function, mirroring that close on
the sentinel is harmless and its return value ignored) and idempotent:
after any call — including on a never-activated instance — the handle
is the closed sentinel, the other members are untouched, it never
throws, and a second call leaves the state exactly where the first
left it. -/
theorem deactivate_idempotent (s : BinaryFileSource) :
    (deactivate s).state.fd = -1 ∧
    (deactivate s).state.path = s.path ∧
    (deactivate s).state.rewind = s.rewind ∧
    (deactivate s).exc = none ∧
    (deactivate (deactivate s).state).state = (deactivate s).state ∧
    (deactivate (deactivate s).state).exc = none := by
  simp [deactivate]

/-- C9: activate on an already open handle with a non-empty path
overwrites the stored descriptor with the result of a fresh open and
never issues a close: no closeFD effect occurs in its trace, so the
previously owned descriptor is leaked — only setFilePath (via its
deactivate step) and deactivate itself close descriptors. -/
theorem activate_leaks_open_handle (openSourceFD : String → Int) (errno : Int)
    (s : BinaryFileSource)
    (hOpen : 0 ≤ s.fd) (hp : s.path ≠ "") :
    (activate openSourceFD errno s).state.fd = openSourceFD s.path ∧
    (∀ f, Effect.closeFD f ∉ (activate openSourceFD errno s).effects) ∧
    (activate openSourceFD errno s).exc = none := by
  unfold activate
  by_cases hfd : openSourceFD s.path < 0
  · simp [hp, hfd]
  · simp [hp, hfd]

/-- Witness for C9: a second activate on an instance already holding
descriptor 3 overwrites it with the freshly opened 8 without closing 3. -/
theorem activate_leaks_open_handle_witness :
    ((activate (fun _ => 8) 0 { fd := 3, path := "a.bin", rewind := false }).state.fd =
       (fun (_ : String) => (8 : Int)) "a.bin" ∧
     (∀ f, Effect.closeFD f ∉ (activate (fun _ => 8) 0 { fd := 3, path := "a.bin", rewind := false }).effects) ∧
     (activate (fun _ => 8) 0 { fd := 3, path := "a.bin", rewind := false }).exc = none) :=
  activate_leaks_open_handle (fun _ => 8) 0 { fd := 3, path := "a.bin", rewind := false }
    (by decide) (by decide)

/-- C10: work is pure with respect to the member state — whatever the
cycle does (yield, produce, rewind on end-of-file, or log a read error),
the stored handle, path and auto-rewind flag after the call equal those
before it, and no exception is thrown; the only effects are the recorded
interactions with the descriptor and the output port. -/
theorem work_frame (s : BinaryFileSource) (env : WorkEnv) :
    (work s env).state = s ∧ (work s env).exc = none := by
  unfold work
  by_cases hsel : selectModel s.fd env.ready ≤ 0
  · simp [hsel]
  · simp [hsel]
